import Mathlib

/-!
# Verification of the multi-hop graph-reasoning core

A shallow embedding of the multi-hop reasoning pipeline found in
`week05/multiJump` (`kg_manager.py`, `graph_manager.py`,
`multihop_coordinator.py`), together with theorems settling the frozen
claims about its specification.

Modelling conventions:

* Python floats are modelled as exact rationals (`ℚ`); all constants in the
  source are small decimals (0.1, 0.15, 0.2, 0.5, 0.7, 0.9) that are used
  only through arithmetic identities stated in the spec, so the exact-decimal
  idealisation is used throughout.
* Fallible external calls (Neo4j sessions, the OpenAI completion call plus
  the subsequent `json.loads`/`float` parsing) are modelled as explicit
  `Except String _` inputs: `Except.error msg` stands for the call raising an
  exception with message `msg`, `Except.ok v` for it returning `v`.
  A function that has a `try/except` in the source pattern-matches the
  `Except` and converts errors; a function without one propagates the error.
* Python `dict` property bags are modelled as association lists
  `List (String × PropVal)`; `dict.get(k, d)` is a lookup with default.
* Python `set` accumulation is modelled as insertion-ordered lists with
  duplicate removal (`List.eraseDups`); only the cardinality of these sets is
  observable in the pipeline's output.
-/

namespace MultiJump

/-- A value stored in a property bag (Python `dict` values that the pipeline
actually inspects are numbers and strings; booleans appear in sample data). -/
inductive PropVal where
  | num (q : ℚ)
  | str (s : String)
  | boolv (b : Bool)
  deriving DecidableEq

/-- A property bag, modelling a Python `dict` as an association list. -/
abbrev Props := List (String × PropVal)

/-- `props.get(key)` — first binding of `key`, if any. -/
def get_prop (props : Props) (key : String) : Option PropVal :=
  (props.find? (fun p => p.1 = key)).map (fun p => p.2)

/-- `props.get('percentage', 0)` used in a numeric comparison: the numeric
value when present, the default `0` otherwise.  (A non-numeric value stored
under `percentage` would make the Python comparison raise; the graph data
only ever stores numbers there, and the model fixes the numeric reading.) -/
def percentage_of (props : Props) : ℚ :=
  match get_prop props "percentage" with
  | some (PropVal.num q) => q
  | _ => 0

/-- `Entity` dataclass of `kg_manager.py`. -/
structure Entity where
  id : String
  name : String
  type : String
  properties : Props
  deriving DecidableEq

/-- `Relation` dataclass of `kg_manager.py`. -/
structure Relation where
  source : String
  target : String
  relation_type : String
  properties : Props
  deriving DecidableEq

/-- `QueryPath` dataclass of `kg_manager.py`. -/
structure QueryPath where
  entities : List Entity
  relations : List Relation
  confidence : ℚ
  reasoning : String
  deriving DecidableEq

/-- `relation.properties.get('percentage', 0)` of one relation. -/
def relation_percentage (r : Relation) : ℚ :=
  percentage_of r.properties

/-- `relation.properties.get('control_type') == 'controlling'`. -/
def is_controlling_rel (r : Relation) : Bool :=
  get_prop r.properties "control_type" = some (PropVal.str "controlling")

/-- The relation-bonus loop of
`KnowledgeGraphManager._calculate_path_confidence` (`kg_manager.py`
lines 201–206): `+0.1` when `percentage > 50`, `elif +0.15` when
`control_type == 'controlling'`. -/
def relation_bonus (relations : List Relation) : ℚ :=
  relations.foldl
    (fun acc r =>
      if relation_percentage r > 50 then acc + 1/10
      else if is_controlling_rel r then acc + 3/20
      else acc)
    0

/-- `KnowledgeGraphManager._calculate_path_confidence` (`kg_manager.py`
lines 195–208): base confidence decays with hop count, floored at 0.1; the
relation bonus is added and the result capped at 1.0. -/
def calculate_path_confidence (hops : ℤ) (relations : List Relation) : ℚ :=
  let base_confidence : ℚ := max (1/10) (1 - ((hops : ℚ) - 1) * (1/5))
  min 1 (base_confidence + relation_bonus relations)

/-- Display of `relation.properties.get('percentage', '')` under Python
truthiness: empty/missing/zero values render as the empty string, anything
else as `(value%)`. -/
def percentage_display (props : Props) : String :=
  match get_prop props "percentage" with
  | none => ""
  | some (PropVal.num q) => if q = 0 then "" else "(" ++ toString q ++ "%)"
  | some (PropVal.str s) => if s = "" then "" else "(" ++ s ++ "%)"
  | some (PropVal.boolv b) => if b then "(" ++ toString b ++ "%)" else ""

/-- One rendered chain link
`f"{entity.name} -> {relation.relation_type} {percentage_str} -> {next_entity.name}"`. -/
def reasoning_part (e1 : Entity) (r : Relation) (e2 : Entity) : String :=
  e1.name ++ " -> " ++ r.relation_type ++ " " ++ percentage_display r.properties
    ++ " -> " ++ e2.name

/-- The loop body of `KnowledgeGraphManager._generate_reasoning`: iterate over
`entities[:-1]`, pairing index `i` with `relations[i]` and `entities[i+1]`,
stopping as soon as either list runs out. -/
def reasoning_parts : List Entity → List Relation → List String
  | e1 :: e2 :: es, r :: rs => reasoning_part e1 r e2 :: reasoning_parts (e2 :: es) rs
  | _, _ => []

/-- `KnowledgeGraphManager._generate_reasoning` (`kg_manager.py`
lines 210–225): a fixed sentinel when either input list is empty, otherwise
the chain links joined with `" -> "`. -/
def generate_reasoning (entities : List Entity) (relations : List Relation) : String :=
  if entities.isEmpty ∨ relations.isEmpty then "无法生成推理路径"
  else String.intercalate " -> " (reasoning_parts entities relations)

/-! ## Graph store adapter (`kg_manager.py`, `graph_manager.py`)

The Neo4j session round-trip of each operation is an explicit
`Except String _` argument: `Except.error msg` models `session.run` (or
result marshalling) raising, `Except.ok v` models the marshalled records the
source builds from the Cypher result rows. -/

/-- One node dict of a `find_shareholders` result row
(`{id: node.id, name: node.name, type: labels(node)[0]}`, produced by the
Cypher projection itself). -/
structure RawNode where
  id : String
  name : String
  type : String
  deriving DecidableEq

/-- One relation dict of a `find_shareholders` result row
(`{type: type(rel), properties: properties(rel)}`). -/
structure RawRel where
  type : String
  properties : Props
  deriving DecidableEq

/-- One result record of the `find_shareholders` Cypher query:
entity dicts, relation dicts, and `length(path)`. -/
structure ShareholderRecord where
  entities : List RawNode
  relations : List RawRel
  hops : ℤ
  deriving DecidableEq

/-- The loop body of `KnowledgeGraphManager.find_shareholders`
(`kg_manager.py` lines 112–138): marshal one record into a `QueryPath`,
computing confidence with `_calculate_path_confidence` and reasoning with
`_generate_reasoning`. -/
def mk_shareholder_path (rec : ShareholderRecord) : QueryPath :=
  let entities := rec.entities.map (fun e => Entity.mk e.id e.name e.type [])
  let relations := rec.relations.map (fun r => Relation.mk "" "" r.type r.properties)
  { entities := entities
    relations := relations
    confidence := calculate_path_confidence rec.hops relations
    reasoning := generate_reasoning entities relations }

/-- `KnowledgeGraphManager.find_shareholders` (`kg_manager.py` lines 94–143):
the whole session interaction sits in a `try` whose `except` logs and falls
through to `return paths`, so a store failure yields the empty list. -/
def find_shareholders (company_name : String) (max_hops : ℤ)
    (session : Except String (List ShareholderRecord)) : List QueryPath :=
  match company_name, max_hops, session with
  | _, _, Except.error _ => []
  | _, _, Except.ok records => records.map mk_shareholder_path

/-- The single `(s, r)` row returned by the `find_controlling_shareholder`
Cypher query: the shareholder node's `id`/`name`/labels/properties and the
relation's properties. -/
structure ControlRecord where
  sh_id : String
  sh_name : String
  sh_labels : List String
  sh_props : Props
  rel_props : Props
  deriving DecidableEq

/-- The record-marshalling body of
`KnowledgeGraphManager.find_controlling_shareholder` (`kg_manager.py`
lines 160–188), given the first label of the shareholder node. -/
def mk_controlling_path (company_name : String) (rec : ControlRecord)
    (label : String) : QueryPath :=
  { entities := [Entity.mk rec.sh_id rec.sh_name label rec.sh_props]
    relations := [Relation.mk rec.sh_id company_name "SHAREHOLDER" rec.rel_props]
    confidence := if percentage_of rec.rel_props > 50 then 9/10 else 7/10
    reasoning := rec.sh_name ++ " 持有 " ++ company_name ++ " "
      ++ (match get_prop rec.rel_props "percentage" with
          | none => "N/A"
          | some (PropVal.num q) => toString q
          | some (PropVal.str s) => s
          | some (PropVal.boolv b) => toString b)
      ++ "% 股份" }

/-- `KnowledgeGraphManager.find_controlling_shareholder` (`kg_manager.py`
lines 145–193): store failures and the `list(shareholder.labels)[0]`
IndexError on a label-less node are caught by the surrounding `try`, and an
empty result row yields `None`; all three cases return `none`. -/
def find_controlling_shareholder (company_name : String)
    (session : Except String (Option ControlRecord)) : Option QueryPath :=
  match session with
  | Except.error _ => none
  | Except.ok none => none
  | Except.ok (some rec) =>
    match rec.sh_labels with
    | [] => none
    | label :: _ => some (mk_controlling_path company_name rec label)

/-- One marshalled node of a `find_multi_hop_relationships` path
(`{"id": node.get("id",""), "name": node.get("name",""),
"labels": list(node.labels)}`). -/
structure MHNode where
  id : String
  name : String
  labels : List String
  deriving DecidableEq

/-- One marshalled path of `Neo4jManager.find_multi_hop_relationships`
(`{"nodes": ..., "relationships": ..., "hop_count": length(path)}`). -/
structure MultiHopRecord where
  nodes : List MHNode
  relationships : List RawRel
  hop_count : ℤ
  deriving DecidableEq

/-- `Neo4jManager.find_multi_hop_relationships` (`graph_manager.py`
lines 115–157): there is no `try/except` anywhere in the method, so a store
failure propagates to the caller unchanged; on success the marshalled
records are returned. -/
def find_multi_hop_relationships (start_entity relationship_type : String)
    (max_hops : ℤ) (session : Except String (List MultiHopRecord)) :
    Except String (List MultiHopRecord) :=
  match start_entity, relationship_type, max_hops, session with
  | _, _, _, Except.error e => Except.error e
  | _, _, _, Except.ok records => Except.ok records

/-- One neighbor row of `Neo4jManager.get_entity_neighbors`. -/
structure NeighborRecord where
  name : String
  labels : List String
  relationship_type : String
  distance : ℤ
  deriving DecidableEq

/-- The `{"entity": ..., "neighbors": ...}` dict returned by
`Neo4jManager.get_entity_neighbors`. -/
structure NeighborsResult where
  entity : String
  neighbors : List NeighborRecord
  deriving DecidableEq

/-- `Neo4jManager.get_entity_neighbors` (`graph_manager.py` lines 159–184):
again no `try/except`, so a store failure propagates to the caller. -/
def get_entity_neighbors (entity_name : String) (max_depth : ℤ)
    (session : Except String (List NeighborRecord)) :
    Except String NeighborsResult :=
  match max_depth, session with
  | _, Except.error e => Except.error e
  | _, Except.ok neighbors => Except.ok (NeighborsResult.mk entity_name neighbors)

/-! ## Multihop coordinator (`multihop_coordinator.py`) -/

/-- The `QueryType` enum (`multihop_coordinator.py` lines 18–23). -/
inductive QueryType where
  | shareholder
  | control_chain
  | relationship
  | entity_info
  deriving DecidableEq

/-- `QueryType.value` of the enum members. -/
def QueryType.value : QueryType → String
  | QueryType.shareholder => "shareholder"
  | QueryType.control_chain => "control_chain"
  | QueryType.relationship => "relationship"
  | QueryType.entity_info => "entity_info"

/-- The dynamically-typed value actually held by the `query_type` field at
runtime: Python does not enforce the dataclass annotation, so the dispatch of
`_execute_graph_query` may receive any value, and every non-enum value
compares unequal (`==`) to all four enum members.  `other tag` stands for
such a foreign value. -/
inductive DynQueryType where
  | shareholder
  | control_chain
  | relationship
  | entity_info
  | other (tag : String)
  deriving DecidableEq

/-- The injection of the enum into the dynamically-typed dispatch domain. -/
def QueryType.toDyn : QueryType → DynQueryType
  | QueryType.shareholder => DynQueryType.shareholder
  | QueryType.control_chain => DynQueryType.control_chain
  | QueryType.relationship => DynQueryType.relationship
  | QueryType.entity_info => DynQueryType.entity_info

/-- `QueryRequest` dataclass (`multihop_coordinator.py` lines 26–34);
the opaque, unused `context` bag is omitted. -/
structure QueryRequest where
  query : String
  query_type : QueryType
  entity : String
  max_hops : ℤ
  similarity_threshold : ℚ
  deriving DecidableEq

/-- The `metadata` dict assembled on the success path of `process_query`. -/
structure MetaData where
  entity : String
  max_hops : ℤ
  steps_count : ℕ
  graph_results_count : ℕ
  deriving DecidableEq

/-- `QueryResult` dataclass (`multihop_coordinator.py` lines 37–47). -/
structure QueryResult where
  query : String
  query_type : QueryType
  paths : List QueryPath
  answer : String
  confidence : ℚ
  reasoning_steps : List String
  execution_time : ℚ
  metadata : MetaData
  deriving DecidableEq

/-- The `integrated_info` dict built by `_integrate_and_reason`
(`multihop_coordinator.py` lines 295–310); the Python sets are modelled as
insertion-ordered deduplicated lists. -/
structure IntegratedInfo where
  total_paths : ℕ
  high_confidence_paths : List QueryPath
  entities_involved : List String
  relationship_types : List String
  deriving DecidableEq

/-- The stage-specific `result` payload carried by a `ReasoningStep`
(a heterogeneous `dict` in Python). -/
inductive StepResult where
  /-- Stage 1 success: the parsed intent dict, of which only the
  `query_type` entry is read downstream. -/
  | intent (query_type : Option String)
  /-- Stage 1 failure: the empty dict. -/
  | intent_failed
  /-- Stage 2: `{'paths': paths}`. -/
  | graph (paths : List QueryPath)
  /-- Stage 3 with no paths: `{'integrated_info': '无相关信息'}`. -/
  | integration_empty
  /-- Stage 3 success: `{'integrated_info': ..., 'paths': paths}`. -/
  | integration (info : IntegratedInfo) (paths : List QueryPath)
  deriving DecidableEq

/-- `step.result.get('paths', [])` on each payload shape. -/
def StepResult.paths_of : StepResult → List QueryPath
  | StepResult.graph ps => ps
  | StepResult.integration _ ps => ps
  | _ => []

/-- `ReasoningStep` dataclass (`multihop_coordinator.py` lines 50–57). -/
structure ReasoningStep where
  step_id : ℤ
  description : String
  data_source : String
  result : StepResult
  confidence : ℚ
  deriving DecidableEq

/-- The parsed stage-4 completion payload: the `answer` and (post-`float`)
`confidence` entries of the JSON object, when present. -/
structure FinalJson where
  answer : Option String
  confidence : Option ℚ
  deriving DecidableEq

/-- The per-request behaviour of every external collaborator, one field per
call site of `process_query`:

* `intent`: outcome of `json.loads(_call_llm(...))` in
  `_identify_query_intent` — `Except.error` when the returned text is not
  valid JSON (note a transport failure inside `_call_llm` is *not* an error
  here: the fixed fallback string parses, giving `Except.ok none` since it
  has no `query_type` entry);
* `shareholders` / `controlling` / `multi_hop` / `neighbors`: the Neo4j
  session round-trip of the four adapter operations;
* `final`: outcome of `json.loads`/`float` on the stage-4 completion text —
  a transport failure again surfaces as the parseable fallback
  `Except.ok ⟨some "系统暂时无法处理该查询", some 0⟩`;
* `elapsed`: the wall-clock duration measured around the pipeline. -/
structure Oracle where
  intent : Except String (Option String)
  shareholders : Except String (List ShareholderRecord)
  controlling : Except String (Option ControlRecord)
  multi_hop : Except String (List MultiHopRecord)
  neighbors : Except String (List NeighborRecord)
  final : Except String FinalJson
  elapsed : ℚ

/-- `MultihopCoordinator._identify_query_intent` (`multihop_coordinator.py`
lines 145–180): a parse failure is caught and degraded to a zero-confidence
step; otherwise the step reports confidence 0.8. -/
def identify_query_intent (o : Oracle) : ReasoningStep :=
  match o.intent with
  | Except.ok qt =>
      ReasoningStep.mk 1 ("意图识别: " ++ qt.getD "未知") "llm" (StepResult.intent qt) (4/5)
  | Except.error e =>
      ReasoningStep.mk 1 ("意图识别失败: " ++ e) "llm" StepResult.intent_failed 0

/-- The step returned on the normal exit of `_execute_graph_query`
(lines 262–268): confidence 0.9 when any path was found, else 0.1. -/
def graph_ok_step (paths : List QueryPath) : ReasoningStep :=
  ReasoningStep.mk 2 ("图谱查询完成，找到 " ++ toString paths.length ++ " 条路径")
    "graph" (StepResult.graph paths) (if paths.isEmpty then 1/10 else 9/10)

/-- The step returned by the `except` clause of `_execute_graph_query`
(lines 270–278). -/
def graph_fail_step (e : String) : ReasoningStep :=
  ReasoningStep.mk 2 ("图谱查询失败: " ++ e) "graph" (StepResult.graph []) 0

/-- `node.get('labels', ['Unknown'])[0]` in the relationship branch
(line 213): the `labels` key is always present in the marshalled record, so
the default is dead code and an empty label list raises an IndexError. -/
def mk_mh_entity (n : MHNode) : Except String Entity :=
  match n.labels with
  | [] => Except.error "list index out of range"
  | label :: _ => Except.ok (Entity.mk n.id n.name label [])

/-- The per-record conversion of the relationship branch
(`multihop_coordinator.py` lines 209–229): note the confidence formula
`max(0.1, 1.0 - result['hop_count'] * 0.2)` inlined there. -/
def mk_relationship_path (rec : MultiHopRecord) : Except String QueryPath :=
  match rec.nodes.mapM mk_mh_entity with
  | Except.error e => Except.error e
  | Except.ok entities =>
    Except.ok
      { entities := entities
        relations := rec.relationships.map (fun r => Relation.mk "" "" r.type r.properties)
        confidence := max (1/10) (1 - (rec.hop_count : ℚ) * (1/5))
        reasoning := "多跳路径，跳数: " ++ toString rec.hop_count }

/-- The entity-info branch's path construction (`multihop_coordinator.py`
lines 238–260): when any neighbor exists, one relation-less path holding the
queried entity plus at most five neighbors, with the constant confidence 0.7. -/
def entity_info_paths (entity : String) (nres : NeighborsResult) : List QueryPath :=
  if nres.neighbors.isEmpty then []
  else
    [{ entities := Entity.mk entity entity "Entity" []
         :: (nres.neighbors.take 5).map (fun n =>
              Entity.mk n.name n.name (n.labels.headD "Unknown")
                [("distance", PropVal.num (n.distance : ℚ))])
       relations := []
       confidence := 7/10
       reasoning := "实体 " ++ entity ++ " 的邻居信息" }]

/-- A record of one graph-store invocation performed by the dispatch, naming
the adapter operation and the arguments passed to it. -/
inductive StoreCall where
  | find_shareholders_call (company : String) (max_hops : ℤ)
  | find_controlling_call (company : String)
  | find_multi_hop_call (start : String) (relationship_type : String) (max_hops : ℤ)
  | get_neighbors_call (entity : String) (max_depth : ℤ)
  deriving DecidableEq

/-- `MultihopCoordinator._execute_graph_query` (`multihop_coordinator.py`
lines 182–278): an `if/elif` chain on `request.query_type` with no `else`;
a value matching none of the four enum members leaves `paths = []` and
returns the normal step.  Exceptions raised by the two uncaught
`Neo4jManager` operations (and by the marshalling of their records) are
caught by this method's `except` clause.  The second component records the
store invocations the taken branch performs. -/
def execute_graph_query (query_type : DynQueryType) (entity : String)
    (max_hops : ℤ) (o : Oracle) : ReasoningStep × List StoreCall :=
  if query_type = DynQueryType.shareholder then
    (graph_ok_step (find_shareholders entity max_hops o.shareholders),
     [StoreCall.find_shareholders_call entity max_hops])
  else if query_type = DynQueryType.control_chain then
    (graph_ok_step
      (match find_controlling_shareholder entity o.controlling with
       | some p => [p]
       | none => []),
     [StoreCall.find_controlling_call entity])
  else if query_type = DynQueryType.relationship then
    (match find_multi_hop_relationships entity "HOLDS" max_hops o.multi_hop with
     | Except.error e => graph_fail_step e
     | Except.ok records =>
       match records.mapM mk_relationship_path with
       | Except.error e => graph_fail_step e
       | Except.ok paths => graph_ok_step paths,
     [StoreCall.find_multi_hop_call entity "HOLDS" max_hops])
  else if query_type = DynQueryType.entity_info then
    (match get_entity_neighbors entity 2 o.neighbors with
     | Except.error e => graph_fail_step e
     | Except.ok nres => graph_ok_step (entity_info_paths entity nres),
     [StoreCall.get_neighbors_call entity 2])
  else
    (graph_ok_step [], [])

/-- `MultihopCoordinator._integrate_and_reason` (`multihop_coordinator.py`
lines 280–331), applied to `graph_results.get('paths', [])`. -/
def integrate_and_reason (graph_result : StepResult) : ReasoningStep :=
  let paths := graph_result.paths_of
  if paths.isEmpty then
    ReasoningStep.mk 3 "未找到相关路径，无法进行推理" "integration"
      StepResult.integration_empty 0
  else
    let info : IntegratedInfo :=
      { total_paths := paths.length
        high_confidence_paths := paths.filter (fun p => p.confidence > 7/10)
        entities_involved :=
          (paths.foldl (fun acc p => acc ++ p.entities.map (fun e => e.name)) []).eraseDups
        relationship_types :=
          (paths.foldl (fun acc p => acc ++ p.relations.map (fun r => r.relation_type)) []).eraseDups }
    ReasoningStep.mk 3
      ("结果整合完成，涉及 " ++ toString info.entities_involved.length ++ " 个实体")
      "integration" (StepResult.integration info paths)
      ((paths.map (fun p => p.confidence)).sum / (paths.length : ℚ))

/-- `MultihopCoordinator._generate_final_answer` (`multihop_coordinator.py`
lines 333–379): any exception in the stage (transport-level errors having
already been converted to the parseable fallback inside `_call_llm`,
lines 396–403) degrades to the fixed failure payload; on success the parsed
`answer`/`confidence` entries are read with defaults. -/
def generate_final_answer (o : Oracle) : String × ℚ :=
  match o.final with
  | Except.error e => ("答案生成失败: " ++ e, 0)
  | Except.ok fj => (fj.answer.getD "无法生成答案", fj.confidence.getD 0)

/-- The `reasoning_steps` list accumulated by `process_query`
(`multihop_coordinator.py` lines 88–103): steps 1–3 are appended; the
answer-synthesis stage returns a plain dict and appends no step. -/
def pipeline_steps (req : QueryRequest) (o : Oracle) : List ReasoningStep :=
  let step1 := identify_query_intent o
  let step2 := (execute_graph_query req.query_type.toDyn req.entity req.max_hops o).1
  let step3 := integrate_and_reason step2.result
  [step1, step2, step3]

/-- The graph-store invocations performed while processing `req`. -/
def store_calls (req : QueryRequest) (o : Oracle) : List StoreCall :=
  (execute_graph_query req.query_type.toDyn req.entity req.max_hops o).2

/-- `MultihopCoordinator.process_query` (`multihop_coordinator.py`
lines 85–143): the four stages run unconditionally in order and the
`QueryResult` is assembled from stage 2's paths and stage 4's
answer/confidence.  Every stage catches its own exceptions, so the outer
`except` (lines 130–143) is unreachable and the function is total. -/
def process_query (req : QueryRequest) (o : Oracle) : QueryResult :=
  let steps := pipeline_steps req o
  let step2 := (execute_graph_query req.query_type.toDyn req.entity req.max_hops o).1
  let paths := step2.result.paths_of
  let fin := generate_final_answer o
  { query := req.query
    query_type := req.query_type
    paths := paths
    answer := fin.1
    confidence := fin.2
    reasoning_steps := steps.map (fun s => s.description)
    execution_time := o.elapsed
    metadata := MetaData.mk req.entity req.max_hops steps.length paths.length }

/-! ## Statistics aggregator (`MultihopCoordinator.get_query_statistics`) -/

/-- `r.confidence > 0.5`, the success criterion of `get_query_statistics`. -/
def is_successful (r : QueryResult) : Bool :=
  r.confidence > 1/2

/-- One accumulation step of the `query_type_stats` dict (lines 440–446):
create the key with zero counters when absent, then bump `count` and, when
the result is successful, the success counter.  The dict is modelled as an
insertion-ordered association list `(type, count, successes)`. -/
def bump_type (acc : List (QueryType × ℕ × ℕ)) (qt : QueryType) (succ : Bool) :
    List (QueryType × ℕ × ℕ) :=
  if acc.any (fun e => e.1 = qt) then
    acc.map (fun e =>
      if e.1 = qt then (e.1, e.2.1 + 1, if succ then e.2.2 + 1 else e.2.2) else e)
  else
    acc ++ [(qt, 1, if succ then 1 else 0)]

/-- The raw `query_type_stats` accumulation loop over the result list. -/
def type_counts (results : List QueryResult) : List (QueryType × ℕ × ℕ) :=
  results.foldl (fun acc r => bump_type acc r.query_type (is_successful r)) []

/-- The summary dict returned by `get_query_statistics` for a non-empty
input. -/
structure StatsSummary where
  total_queries : ℕ
  successful_queries : ℕ
  success_rate : ℚ
  average_confidence : ℚ
  average_execution_time : ℚ
  query_type_statistics : List (QueryType × ℕ × ℚ)
  deriving DecidableEq

/-- `MultihopCoordinator.get_query_statistics` (`multihop_coordinator.py`
lines 429–461): the empty dict (modelled `none`) for an empty input,
otherwise counts, ratios, means and the per-type breakdown whose
`success_rate` entries are divided out with a `count > 0` guard. -/
def get_query_statistics (results : List QueryResult) : Option StatsSummary :=
  if results.isEmpty then none
  else
    some
      { total_queries := results.length
        successful_queries := (results.filter (fun r => is_successful r)).length
        success_rate :=
          ((results.filter (fun r => is_successful r)).length : ℚ) / (results.length : ℚ)
        average_confidence :=
          (results.map (fun r => r.confidence)).sum / (results.length : ℚ)
        average_execution_time :=
          (results.map (fun r => r.execution_time)).sum / (results.length : ℚ)
        query_type_statistics :=
          (type_counts results).map (fun e =>
            (e.1, e.2.1, if e.2.1 > 0 then (e.2.2 : ℚ) / (e.2.1 : ℚ) else 0)) }

/-- Lookup of one query type's entry in an association list keyed like the
`query_type_stats` dict. -/
def lookup_counts (qt : QueryType) (l : List (QueryType × ℕ × ℕ)) : Option (ℕ × ℕ) :=
  (l.find? (fun e => e.1 = qt)).map (fun e => e.2)

/-- Lookup of one query type's `{count, success_rate}` entry in the final
breakdown. -/
def lookup_stat (qt : QueryType) (s : StatsSummary) : Option (ℕ × ℚ) :=
  (s.query_type_statistics.find? (fun e => e.1 = qt)).map (fun e => e.2)

/-- Number of results of one query type. -/
def count_of_type (results : List QueryResult) (qt : QueryType) : ℕ :=
  (results.filter (fun r => r.query_type = qt)).length

/-- Number of successful results of one query type. -/
def success_of_type (results : List QueryResult) (qt : QueryType) : ℕ :=
  (results.filter (fun r => r.query_type = qt ∧ is_successful r)).length

/-! ## Scorer lemmas -/

/-- The bonus one relation contributes under the source's `if/elif`:
the percentage bonus takes precedence and the two bonuses are mutually
exclusive. -/
def per_relation_bonus (r : Relation) : ℚ :=
  if relation_percentage r > 50 then 1/10
  else if is_controlling_rel r then 3/20
  else 0

lemma relation_bonus_foldl (relations : List Relation) (init : ℚ) :
    relations.foldl
      (fun acc r =>
        if relation_percentage r > 50 then acc + 1/10
        else if is_controlling_rel r then acc + 3/20
        else acc)
      init
    = init + (relations.map per_relation_bonus).sum := by
  induction relations generalizing init with
  | nil => simp
  | cons r t ih =>
    simp only [List.foldl_cons, List.map_cons, List.sum_cons]
    rw [ih]
    unfold per_relation_bonus
    split_ifs <;> ring

lemma relation_bonus_eq_sum (relations : List Relation) :
    relation_bonus relations = (relations.map per_relation_bonus).sum := by
  unfold relation_bonus
  rw [relation_bonus_foldl]
  ring

lemma per_relation_bonus_nonneg (r : Relation) : 0 ≤ per_relation_bonus r := by
  unfold per_relation_bonus
  split_ifs <;> norm_num

lemma relation_bonus_nonneg (relations : List Relation) :
    0 ≤ relation_bonus relations := by
  rw [relation_bonus_eq_sum]
  apply List.sum_nonneg
  intro x hx
  obtain ⟨r, _, rfl⟩ := List.mem_map.mp hx
  exact per_relation_bonus_nonneg r

lemma calculate_path_confidence_base (h : ℤ) (hh : 1 ≤ h) :
    calculate_path_confidence h [] = max (1/10) (1 - ((h : ℚ) - 1) * (1/5)) := by
  have h1 : (1 : ℚ) ≤ (h : ℚ) := by exact_mod_cast hh
  simp only [calculate_path_confidence, relation_bonus, List.foldl_nil, add_zero]
  apply min_eq_right
  apply max_le (by norm_num)
  nlinarith

/-! ## Claim theorems -/

/-- C2 (confirmed): for every hop count `h ≥ 1`, scoring with an empty
relation list yields `max(0.1, 1.0 − (h−1)×0.2)`; a 1-hop path scores 1.0, a
3-hop path 0.6, and the score is monotonically non-increasing in the hop
count. -/
theorem claim_C2_base_confidence :
    (∀ h : ℤ, 1 ≤ h →
      calculate_path_confidence h [] = max (1/10) (1 - ((h : ℚ) - 1) * (1/5)))
    ∧ calculate_path_confidence 1 [] = 1
    ∧ calculate_path_confidence 3 [] = 3/5
    ∧ (∀ h h2 : ℤ, 1 ≤ h → h ≤ h2 →
        calculate_path_confidence h2 [] ≤ calculate_path_confidence h []) := by
  refine ⟨calculate_path_confidence_base,
    by norm_num [calculate_path_confidence, relation_bonus, min_def, max_def],
    by norm_num [calculate_path_confidence, relation_bonus, min_def, max_def], ?_⟩
  intro h h2 hh hle
  rw [calculate_path_confidence_base h hh,
      calculate_path_confidence_base h2 (le_trans hh hle)]
  apply max_le_max (le_refl _)
  have hc : (h : ℚ) ≤ (h2 : ℚ) := by exact_mod_cast hle
  nlinarith

/-- Instantiation of `claim_C2_base_confidence` at concrete hop counts. -/
theorem claim_C2_witness :
    calculate_path_confidence 2 [] = max (1/10) (1 - ((2 : ℚ) - 1) * (1/5))
    ∧ calculate_path_confidence 5 [] ≤ calculate_path_confidence 2 [] :=
  ⟨claim_C2_base_confidence.1 2 (by norm_num),
   claim_C2_base_confidence.2.2.2 2 5 (by norm_num) (by norm_num)⟩

/-- The per-relation bonus exactly as the claim words it: `+0.1` for
`percentage > 50` *and additionally* `+0.15` for `control_type =
'controlling'`, each qualifying relation contributing its bonus. -/
def claimed_relation_bonus (r : Relation) : ℚ :=
  (if relation_percentage r > 50 then 1/10 else 0)
  + (if is_controlling_rel r then 3/20 else 0)

/-- The path score as claimed: base plus the cumulative claimed bonuses,
clamped. -/
def claimed_score (hops : ℤ) (relations : List Relation) : ℚ :=
  min 1 (max (1/10) (1 - ((hops : ℚ) - 1) * (1/5))
    + (relations.map claimed_relation_bonus).sum)

/-- A relation that both exceeds 50% and is flagged controlling. -/
def c3_relation : Relation :=
  Relation.mk "sh_x" "comp_x" "SHAREHOLDER"
    [("percentage", PropVal.num 60), ("control_type", PropVal.str "controlling")]

/-- C3 (counterexample): on a relation with `percentage = 60` *and*
`control_type = 'controlling'` the source's `elif` awards only the 0.1
percentage bonus, so a 3-hop path scores 0.7, not the 0.85 the claim's
additive reading demands. -/
theorem claim_C3_counterexample :
    calculate_path_confidence 3 [c3_relation] = 7/10
    ∧ claimed_score 3 [c3_relation] = 17/20
    ∧ calculate_path_confidence 3 [c3_relation] ≠ claimed_score 3 [c3_relation] := by
  have hpct : relation_percentage c3_relation = 60 := rfl
  have hctl : is_controlling_rel c3_relation = true := rfl
  have hbon : relation_bonus [c3_relation] = 1/10 := by
    simp only [relation_bonus, List.foldl_cons, List.foldl_nil, hpct]
    norm_num
  have hcb : claimed_relation_bonus c3_relation = 1/10 + 3/20 := by
    simp only [claimed_relation_bonus, hpct, hctl]
    norm_num
  have hcode : calculate_path_confidence 3 [c3_relation] = 7/10 := by
    simp only [calculate_path_confidence, hbon]
    norm_num [min_def, max_def]
  have hclaim : claimed_score 3 [c3_relation] = 17/20 := by
    simp only [claimed_score, List.map_cons, List.map_nil, List.sum_cons,
      List.sum_nil, hcb]
    norm_num [min_def, max_def]
  refine ⟨hcode, hclaim, ?_⟩
  rw [hcode, hclaim]
  norm_num

/-- C3 (amended): each relation contributes `+0.1` when its percentage
exceeds 50, otherwise `+0.15` when its `control_type` is `'controlling'`
(the two bonuses are mutually exclusive, percentage taking precedence), and
the final score is clamped into `[0.1, 1.0]`. -/
theorem claim_C3_bonus_and_clamp (hops : ℤ) (relations : List Relation) :
    calculate_path_confidence hops relations
      = min 1 (max (1/10) (1 - ((hops : ℚ) - 1) * (1/5))
          + (relations.map per_relation_bonus).sum)
    ∧ 1/10 ≤ calculate_path_confidence hops relations
    ∧ calculate_path_confidence hops relations ≤ 1 := by
  have heq : calculate_path_confidence hops relations
      = min 1 (max (1/10) (1 - ((hops : ℚ) - 1) * (1/5))
          + (relations.map per_relation_bonus).sum) := by
    simp only [calculate_path_confidence]
    rw [relation_bonus_eq_sum]
  refine ⟨heq, ?_, ?_⟩
  · rw [heq]
    apply le_min (by norm_num)
    have h1 : (1 : ℚ)/10 ≤ max (1/10) (1 - ((hops : ℚ) - 1) * (1/5)) :=
      le_max_left _ _
    have h2 : 0 ≤ (relations.map per_relation_bonus).sum := by
      rw [← relation_bonus_eq_sum]
      exact relation_bonus_nonneg relations
    linarith
  · rw [heq]
    exact min_le_left _ _

/-- C10 (confirmed): with exactly one entity and a non-empty relation list,
both lists are non-empty so the sentinel branch is not taken, yet no
`(entity, relation, next entity)` triple can be paired, so the rendered
reasoning is the empty string — which is not the sentinel. -/
theorem claim_C10_single_entity :
    ∀ (entities : List Entity) (relations : List Relation),
      entities.length = 1 → relations ≠ [] →
      generate_reasoning entities relations = ""
      ∧ generate_reasoning entities relations ≠ "无法生成推理路径" := by
  intro es rs hlen hne
  obtain ⟨e, rfl⟩ : ∃ e, es = [e] := by
    match es, hlen with
    | [e], _ => exact ⟨e, rfl⟩
  obtain ⟨r, rs', rfl⟩ : ∃ r rs', rs = r :: rs' := by
    cases rs with
    | nil => exact absurd rfl hne
    | cons r rs' => exact ⟨r, rs', rfl⟩
  have h0 : generate_reasoning [e] (r :: rs') = "" := rfl
  refine ⟨h0, ?_⟩
  rw [h0]
  decide

/-- A concrete healthy oracle: every external call succeeds, the store holds
the sample data's 1-hop shareholder path, and the synthesis stage returns a
confident parsed answer. -/
def sample_oracle : Oracle :=
  { intent := Except.ok (some "shareholder")
    shareholders := Except.ok
      [ShareholderRecord.mk
        [RawNode.mk "comp_003" "字节跳动" "Company", RawNode.mk "sh_003" "张一鸣" "Shareholder"]
        [RawRel.mk "SHAREHOLDER" [("percentage", PropVal.num (101/5))]]
        1]
    controlling := Except.ok none
    multi_hop := Except.ok []
    neighbors := Except.ok []
    final := Except.ok (FinalJson.mk (some "张一鸣持股20.2%，是字节跳动的最大股东") (some (9/10)))
    elapsed := 1/100 }

/-- Scenario A's request. -/
def sample_request : QueryRequest :=
  QueryRequest.mk "字节跳动的最大股东是谁？" QueryType.shareholder "字节跳动" 3 (7/10)

/-! ### C6: adapter failure policy -/

/-- C6 (counterexample): a store-communication failure in
`find_multi_hop_relationships` is *not* converted into an empty result set —
the method has no exception handler, so the failure propagates to the
Coordinator unchanged rather than yielding `[]`. -/
theorem claim_C6_counterexample :
    find_multi_hop_relationships "字节跳动" "HOLDS" 3 (Except.error "connection refused")
      = Except.error "connection refused"
    ∧ find_multi_hop_relationships "字节跳动" "HOLDS" 3 (Except.error "connection refused")
      ≠ Except.ok [] := by
  refine ⟨rfl, ?_⟩
  intro h
  exact Except.noConfusion h

/-- C6 (amended): only `find_shareholders` (and
`find_controlling_shareholder`) catch store failures at the adapter boundary
and signal absence via an empty collection; `find_multi_hop_relationships`
and `get_entity_neighbors` have no handler and propagate the failure to the
Coordinator, whose graph-query stage catches it. -/
theorem claim_C6_failure_policy :
    (∀ (name : String) (hops : ℤ) (msg : String),
      find_shareholders name hops (Except.error msg) = [])
    ∧ (∀ (company msg : String),
        find_controlling_shareholder company (Except.error msg) = none)
    ∧ (∀ (start rel : String) (hops : ℤ) (msg : String),
        find_multi_hop_relationships start rel hops (Except.error msg)
          = Except.error msg)
    ∧ (∀ (entity : String) (depth : ℤ) (msg : String),
        get_entity_neighbors entity depth (Except.error msg) = Except.error msg) :=
  ⟨fun _ _ _ => rfl, fun _ _ => rfl, fun _ _ _ _ => rfl, fun _ _ _ => rfl⟩

/-! ### C7: unknown query type at the dispatch -/

/-- C7 (counterexample): a `query_type` that is none of the four enum
variants reaches the dispatch and silently falls through: no store call is
made and the returned step is the *normal* completion step for zero paths
(description `图谱查询完成，找到 0 条路径`, confidence 0.1) —
indistinguishable from a genuine no-data outcome, not a loud failure. -/
theorem claim_C7_counterexample :
    execute_graph_query (DynQueryType.other "fund_flow") "字节跳动" 3 sample_oracle
      = (ReasoningStep.mk 2 "图谱查询完成，找到 0 条路径" "graph"
          (StepResult.graph []) (1/10), [])
    ∧ ReasoningStep.mk 2 "图谱查询完成，找到 0 条路径" "graph"
          (StepResult.graph []) (1/10)
        = graph_ok_step [] :=
  ⟨rfl, rfl⟩

/-- C7 (amended): the dispatch's `if/elif` chain has no `else`, so any
`query_type` outside the four known variants silently yields the normal
empty-path step with confidence 0.1 and performs no graph-store call; it
does not fail loudly. -/
theorem claim_C7_silent_fallthrough (tag entity : String) (max_hops : ℤ)
    (o : Oracle) :
    execute_graph_query (DynQueryType.other tag) entity max_hops o
      = (graph_ok_step [], []) :=
  rfl

/-! ### C8: non-positive maxHops -/

/-- Scenario D's request: `max_hops = 0`. -/
def c8_request : QueryRequest :=
  QueryRequest.mk "字节跳动的最大股东是谁？" QueryType.shareholder "字节跳动" 0 (7/10)

/-- C8 (counterexample): a request with `maxHops = 0` is not rejected —
the shareholder traversal is still invoked (with the non-positive bound
interpolated into the store query) and a normal `QueryResult` comes back. -/
theorem claim_C8_counterexample :
    store_calls c8_request sample_oracle
      = [StoreCall.find_shareholders_call "字节跳动" 0]
    ∧ (process_query c8_request sample_oracle).answer
      = "张一鸣持股20.2%，是字节跳动的最大股东"
    ∧ (process_query c8_request sample_oracle).confidence = 9/10 :=
  ⟨rfl, rfl, rfl⟩

/-! ### Per-stage field lemmas -/

lemma identify_fields (o : Oracle) :
    (identify_query_intent o).step_id = 1
    ∧ (identify_query_intent o).data_source = "llm" := by
  cases ho : o.intent <;> simp [identify_query_intent, ho]

lemma step2_fields (qt : DynQueryType) (entity : String) (max_hops : ℤ)
    (o : Oracle) :
    ((execute_graph_query qt entity max_hops o).1).step_id = 2
    ∧ ((execute_graph_query qt entity max_hops o).1).data_source = "graph" := by
  unfold execute_graph_query
  split_ifs
  · exact ⟨rfl, rfl⟩
  · exact ⟨rfl, rfl⟩
  · rcases ho : o.multi_hop with e | recs
    · simp [find_multi_hop_relationships, graph_fail_step]
    · rcases hm : recs.mapM mk_relationship_path with e | ps <;>
        simp only [find_multi_hop_relationships, hm] <;> exact ⟨rfl, rfl⟩
  · rcases ho : o.neighbors with e | ns <;>
      simp [get_entity_neighbors, ho, graph_fail_step, graph_ok_step]
  · exact ⟨rfl, rfl⟩

lemma integrate_fields (res : StepResult) :
    (integrate_and_reason res).step_id = 3
    ∧ (integrate_and_reason res).data_source = "integration" := by
  simp only [integrate_and_reason]
  split_ifs <;> exact ⟨rfl, rfl⟩

/-- C8 (amended): `maxHops` is never validated — even for a zero or negative
bound the dispatch performs its branch's store traversal call and the
pipeline returns a normal three-step `QueryResult` rather than rejecting the
request. -/
theorem claim_C8_no_validation (req : QueryRequest) (o : Oracle)
    (h : req.max_hops ≤ 0) :
    store_calls req o ≠ []
    ∧ (process_query req o).reasoning_steps.length = 3
    ∧ (process_query req o).metadata.max_hops = req.max_hops := by
  refine ⟨?_, by simp [process_query, pipeline_steps], by simp [process_query]⟩
  unfold store_calls execute_graph_query
  cases hq : req.query_type <;> simp [QueryType.toDyn]

/-- Instantiation of `claim_C8_no_validation` at `maxHops = −1`. -/
theorem claim_C8_witness :
    store_calls (QueryRequest.mk "关系查询" QueryType.relationship "A" (-1) (7/10))
        sample_oracle ≠ []
    ∧ (process_query (QueryRequest.mk "关系查询" QueryType.relationship "A" (-1) (7/10))
        sample_oracle).reasoning_steps.length = 3
    ∧ (process_query (QueryRequest.mk "关系查询" QueryType.relationship "A" (-1) (7/10))
        sample_oracle).metadata.max_hops
      = (QueryRequest.mk "关系查询" QueryType.relationship "A" (-1) (7/10)).max_hops :=
  claim_C8_no_validation _ _ (by norm_num)

/-! ### C5: the per-request step list -/

/-- C5 (counterexample): on a fully successful run of Scenario A's request,
the accumulated step list has exactly three entries with `step_id` values
1, 2, 3 — the answer-synthesis stage appends no `ReasoningStep`, so the
claimed ids `1..4` never occur. -/
theorem claim_C5_counterexample :
    (pipeline_steps sample_request sample_oracle).map (fun s => s.step_id)
      = [1, 2, 3]
    ∧ (pipeline_steps sample_request sample_oracle).length = 3
    ∧ ¬ (4 : ℤ) ∈ (pipeline_steps sample_request sample_oracle).map
        (fun s => s.step_id) := by
  have h : (pipeline_steps sample_request sample_oracle).map (fun s => s.step_id)
      = [1, 2, 3] := rfl
  refine ⟨h, rfl, ?_⟩
  rw [h]
  decide

/-- C5 (amended): for every request and every behaviour of the external
collaborators, exactly the first three stages (intent, traversal,
integration) each append one `ReasoningStep`, with ids monotonically
increasing `1, 2, 3` and the fixed data sources `llm, graph, integration`;
no stage is skipped on degraded results, and answer synthesis contributes
the final answer without appending a step. -/
theorem claim_C5_three_steps (req : QueryRequest) (o : Oracle) :
    (pipeline_steps req o).map (fun s => s.step_id) = [1, 2, 3]
    ∧ (pipeline_steps req o).map (fun s => s.data_source)
      = ["llm", "graph", "integration"] := by
  have h1 := identify_fields o
  have h2 := step2_fields req.query_type.toDyn req.entity req.max_hops o
  have h3 := integrate_fields
    (execute_graph_query req.query_type.toDyn req.entity req.max_hops o).1.result
  simp only [pipeline_steps, List.map_cons, List.map_nil]
  rw [h1.1, h1.2, h2.1, h2.2, h3.1, h3.2]
  exact ⟨rfl, rfl⟩

/-! ### C1: the outer failure boundary -/

/-- An oracle in which the graph store is down during stage 2 while the
completion service works normally in stages 1 and 4. -/
def c1_oracle : Oracle :=
  { intent := Except.ok (some "relationship")
    shareholders := Except.ok []
    controlling := Except.ok none
    multi_hop := Except.error "Neo4j connection refused"
    neighbors := Except.ok []
    final := Except.ok (FinalJson.mk (some "未能基于图谱信息作答") (some (9/10)))
    elapsed := 1/100 }

/-- A relationship-type request. -/
def c1_request : QueryRequest :=
  QueryRequest.mk "A公司和B公司是什么关系？" QueryType.relationship "A公司" 3 (7/10)

/-- C1 (counterexample): the graph-traversal stage fails (its step records
confidence 0 and an explicit failure description), yet the returned
`QueryResult` carries confidence 0.9 and a failure-free answer — a pipeline
stage failed but the result does not carry `confidence = 0.0`. -/
theorem claim_C1_counterexample :
    (pipeline_steps c1_request c1_oracle).map (fun s => s.confidence)
      = [4/5, 0, 0]
    ∧ (pipeline_steps c1_request c1_oracle).map (fun s => s.description)
      = ["意图识别: relationship", "图谱查询失败: Neo4j connection refused",
         "未找到相关路径，无法进行推理"]
    ∧ (process_query c1_request c1_oracle).confidence = 9/10
    ∧ (9/10 : ℚ) ≠ 0 :=
  ⟨rfl, rfl, rfl, by norm_num⟩

/-- C1 (amended): `process_query` is total — it returns a well-formed
`QueryResult` for every request and every collaborator behaviour — and when
the *answer-synthesis* stage fails, the result carries `confidence = 0.0`
and an explicit failure message in `answer`; failures in earlier stages are
recorded as zero-confidence steps while the overall confidence is whatever
synthesis returns. -/
theorem claim_C1_failure_boundary (req : QueryRequest) (o : Oracle)
    (msg : String) (h : o.final = Except.error msg) :
    (process_query req o).confidence = 0
    ∧ (process_query req o).answer = "答案生成失败: " ++ msg
    ∧ (process_query req o).query = req.query
    ∧ (process_query req o).reasoning_steps.length = 3 := by
  simp [process_query, generate_final_answer, h, pipeline_steps]

/-- An oracle whose stage-4 completion text does not parse as JSON. -/
def c1_failing_oracle : Oracle :=
  { sample_oracle with
    final := Except.error "Expecting value: line 1 column 1 (char 0)" }

/-- Instantiation of `claim_C1_failure_boundary` at a concrete synthesis
failure. -/
theorem claim_C1_witness :
    (process_query sample_request c1_failing_oracle).confidence = 0
    ∧ (process_query sample_request c1_failing_oracle).answer
      = "答案生成失败: " ++ "Expecting value: line 1 column 1 (char 0)"
    ∧ (process_query sample_request c1_failing_oracle).query
      = sample_request.query
    ∧ (process_query sample_request c1_failing_oracle).reasoning_steps.length = 3 :=
  claim_C1_failure_boundary sample_request c1_failing_oracle
    "Expecting value: line 1 column 1 (char 0)" rfl

/-! ### C4: where path confidence comes from -/

/-- A concrete 1-hop record of the relationship branch (an 8.5% holding). -/
def c4_record : MultiHopRecord :=
  MultiHopRecord.mk
    [MHNode.mk "comp_001" "腾讯控股" ["Company"],
     MHNode.mk "sh_001" "马化腾" ["Shareholder"]]
    [RawRel.mk "HOLDS" [("percentage", PropVal.num (17/2))]]
    1

/-- The `QueryPath` the relationship branch marshals from `c4_record`. -/
def c4_path : QueryPath :=
  { entities := [Entity.mk "comp_001" "腾讯控股" "Company" [],
                 Entity.mk "sh_001" "马化腾" "Shareholder" []]
    relations := [Relation.mk "" "" "HOLDS" [("percentage", PropVal.num (17/2))]]
    confidence := max (1/10) (1 - ((1 : ℤ) : ℚ) * (1/5))
    reasoning := "多跳路径，跳数: " ++ toString (1 : ℤ) }

/-- C4 (counterexample): the relationship branch produces a 1-hop path with
confidence `max(0.1, 1.0 − 1×0.2) = 0.8`, while the section-4.2 scorer on
that path's hop count and relations yields `1.0` — the traversal branch sets
confidence with a different formula. -/
theorem claim_C4_counterexample :
    mk_relationship_path c4_record = Except.ok c4_path
    ∧ c4_path.confidence = 4/5
    ∧ calculate_path_confidence (c4_path.relations.length : ℤ) c4_path.relations = 1
    ∧ c4_path.confidence
      ≠ calculate_path_confidence (c4_path.relations.length : ℤ) c4_path.relations := by
  have h1 : mk_relationship_path c4_record = Except.ok c4_path := rfl
  have h2 : c4_path.confidence = 4/5 := by
    simp only [c4_path]
    norm_num [max_def]
  have h3 : calculate_path_confidence (c4_path.relations.length : ℤ)
      c4_path.relations = 1 := by
    have hp : relation_percentage
        (Relation.mk "" "" "HOLDS" [("percentage", PropVal.num (17/2))]) = 17/2 := rfl
    have hc : is_controlling_rel
        (Relation.mk "" "" "HOLDS" [("percentage", PropVal.num (17/2))]) = false := rfl
    have hb : relation_bonus c4_path.relations = 0 := by
      simp only [c4_path, relation_bonus, List.foldl_cons, List.foldl_nil, hp, hc]
      norm_num
    simp only [calculate_path_confidence, hb]
    norm_num [c4_path, min_def, max_def]
  refine ⟨h1, h2, h3, ?_⟩
  rw [h2, h3]
  norm_num

/-- C4 (amended): only the shareholder traversal computes a path's
confidence with the section-4.2 scorer; the relationship branch inlines the
different decay `max(0.1, 1.0 − hopCount×0.2)` with no bonus, the
control-chain branch sets 0.9 or 0.7 directly from the percentage, and the
entity-info branch uses the constant 0.7. -/
theorem claim_C4_confidence_sources :
    (∀ rec : ShareholderRecord,
      (mk_shareholder_path rec).confidence
        = calculate_path_confidence rec.hops (mk_shareholder_path rec).relations)
    ∧ (∀ (rec : MultiHopRecord) (p : QueryPath),
        mk_relationship_path rec = Except.ok p →
        p.confidence = max (1/10) (1 - (rec.hop_count : ℚ) * (1/5)))
    ∧ (∀ (company : String) (rec : ControlRecord) (label : String),
        (mk_controlling_path company rec label).confidence
          = if percentage_of rec.rel_props > 50 then 9/10 else 7/10)
    ∧ (∀ (entity : String) (nres : NeighborsResult) (p : QueryPath),
        p ∈ entity_info_paths entity nres → p.confidence = 7/10) := by
  refine ⟨fun rec => rfl, ?_, fun c rec label => rfl, ?_⟩
  · intro rec p hp
    unfold mk_relationship_path at hp
    rcases hm : rec.nodes.mapM mk_mh_entity with e | es <;> rw [hm] at hp
    · exact Except.noConfusion hp
    · injection hp with h
      subst h
      rfl
  · intro entity nres p hp
    unfold entity_info_paths at hp
    split_ifs at hp
    · exact absurd hp (List.not_mem_nil p)
    · rw [List.mem_singleton] at hp
      subst hp
      rfl

/-- Instantiation of `claim_C4_confidence_sources` at the concrete
relationship-branch record. -/
theorem claim_C4_witness :
    c4_path.confidence = max (1/10) (1 - ((c4_record.hop_count : ℚ)) * (1/5)) :=
  claim_C4_confidence_sources.2.1 c4_record c4_path rfl

/-! ### C9: the statistics aggregator -/

lemma lookup_counts_cons (qt : QueryType) (e : QueryType × ℕ × ℕ)
    (t : List (QueryType × ℕ × ℕ)) :
    lookup_counts qt (e :: t) = if e.1 = qt then some e.2 else lookup_counts qt t := by
  by_cases h : e.1 = qt <;> simp [lookup_counts, List.find?, h]

lemma lookup_counts_isSome_of_any (acc : List (QueryType × ℕ × ℕ)) (q : QueryType)
    (h : acc.any (fun e => e.1 = q) = true) : (lookup_counts q acc).isSome := by
  induction acc with
  | nil => simp at h
  | cons e t ih =>
    by_cases he : e.1 = q
    · simp [lookup_counts_cons, he]
    · simp only [List.any_cons, Bool.or_eq_true, decide_eq_true_eq] at h
      rcases h with h | h
      · exact absurd h he
      · simp [lookup_counts_cons, he, ih h]

lemma lookup_counts_eq_none_of_any_false (acc : List (QueryType × ℕ × ℕ))
    (q : QueryType) (h : acc.any (fun e => e.1 = q) = false) :
    lookup_counts q acc = none := by
  induction acc with
  | nil => rfl
  | cons e t ih =>
    simp only [List.any_cons, Bool.or_eq_false_iff, decide_eq_false_iff_not] at h
    simp [lookup_counts_cons, h.1, ih h.2]

lemma lookup_counts_map_bump (acc : List (QueryType × ℕ × ℕ)) (q : QueryType)
    (s : Bool) (qt : QueryType) :
    lookup_counts qt (acc.map (fun e =>
        if e.1 = q then (e.1, e.2.1 + 1, if s then e.2.2 + 1 else e.2.2) else e))
      = if qt = q then
          (lookup_counts qt acc).map
            (fun cs => (cs.1 + 1, if s then cs.2 + 1 else cs.2))
        else lookup_counts qt acc := by
  induction acc with
  | nil => by_cases h : qt = q <;> simp [lookup_counts, h]
  | cons e t ih =>
    rcases e with ⟨k, c, sc⟩
    by_cases hk : k = qt
    · subst hk
      by_cases hq : k = q
      · subst hq
        simp [lookup_counts_cons]
      · simp [lookup_counts_cons, hq, fun h => hq (Eq.symm h)]
    · have hk2 : ¬ qt = k := fun hh => hk (Eq.symm hh)
      by_cases hq : k = q
      · subst hq
        simp [lookup_counts_cons, hk, hk2, ih]
      · simp [lookup_counts_cons, hk, hq, ih]

lemma lookup_counts_append_single (acc : List (QueryType × ℕ × ℕ))
    (x : QueryType × ℕ × ℕ) (qt : QueryType) (h : lookup_counts qt acc = none) :
    lookup_counts qt (acc ++ [x])
      = if x.1 = qt then some x.2 else none := by
  induction acc with
  | nil => simp [lookup_counts_cons, lookup_counts]
  | cons e t ih =>
    rw [lookup_counts_cons] at h
    by_cases he : e.1 = qt
    · rw [if_pos he] at h
      exact Option.noConfusion h
    · rw [if_neg he] at h
      simp [List.cons_append, lookup_counts_cons, he, ih h]

lemma lookup_counts_append_of_some (acc : List (QueryType × ℕ × ℕ))
    (x : QueryType × ℕ × ℕ) (qt : QueryType) (v : ℕ × ℕ)
    (h : lookup_counts qt acc = some v) :
    lookup_counts qt (acc ++ [x]) = some v := by
  induction acc with
  | nil => exact Option.noConfusion h
  | cons e t ih =>
    rw [lookup_counts_cons] at h
    by_cases he : e.1 = qt
    · rw [if_pos he] at h
      simp [List.cons_append, lookup_counts_cons, he, h]
    · rw [if_neg he] at h
      simp [List.cons_append, lookup_counts_cons, he, ih h]

lemma lookup_counts_bump_some (acc : List (QueryType × ℕ × ℕ)) (q : QueryType)
    (s : Bool) (qt : QueryType) (c sc : ℕ)
    (h : lookup_counts qt acc = some (c, sc)) :
    lookup_counts qt (bump_type acc q s)
      = if qt = q then some (c + 1, if s then sc + 1 else sc) else some (c, sc) := by
  unfold bump_type
  by_cases hmem : acc.any (fun e => e.1 = q) = true
  · rw [if_pos hmem, lookup_counts_map_bump, h]
    by_cases hq : qt = q <;> simp [hq]
  · rw [if_neg hmem]
    have hn : lookup_counts q acc = none :=
      lookup_counts_eq_none_of_any_false _ _ (Bool.eq_false_iff.mpr hmem)
    by_cases hq : qt = q
    · subst hq
      rw [h] at hn
      exact Option.noConfusion hn
    · rw [lookup_counts_append_of_some _ _ _ _ h, if_neg hq]

lemma lookup_counts_bump_none (acc : List (QueryType × ℕ × ℕ)) (q : QueryType)
    (s : Bool) (qt : QueryType) (h : lookup_counts qt acc = none) :
    lookup_counts qt (bump_type acc q s)
      = if qt = q then some (1, if s then 1 else 0) else none := by
  unfold bump_type
  by_cases hmem : acc.any (fun e => e.1 = q) = true
  · by_cases hq : qt = q
    · subst hq
      have := lookup_counts_isSome_of_any acc qt hmem
      rw [h] at this
      exact absurd this (by simp)
    · rw [if_pos hmem, lookup_counts_map_bump, h, if_neg hq]
      simp [h, hq]
  · rw [if_neg hmem, lookup_counts_append_single _ _ _ h]
    by_cases hq : qt = q
    · subst hq
      simp
    · simp [hq, Ne.symm hq]

lemma count_of_type_cons (r : QueryResult) (t : List QueryResult) (qt : QueryType) :
    count_of_type (r :: t) qt
      = count_of_type t qt + (if r.query_type = qt then 1 else 0) := by
  by_cases h : r.query_type = qt <;>
    simp [count_of_type, List.filter_cons, h]

lemma success_of_type_cons (r : QueryResult) (t : List QueryResult) (qt : QueryType) :
    success_of_type (r :: t) qt
      = success_of_type t qt
        + (if r.query_type = qt ∧ is_successful r then 1 else 0) := by
  by_cases h : r.query_type = qt ∧ is_successful r <;>
    simp [success_of_type, List.filter_cons, h]

lemma type_counts_loop (results : List QueryResult) :
    ∀ (acc : List (QueryType × ℕ × ℕ)) (qt : QueryType),
      lookup_counts qt
        (results.foldl (fun acc r => bump_type acc r.query_type (is_successful r)) acc)
      = match lookup_counts qt acc with
        | some cs =>
          some (cs.1 + count_of_type results qt, cs.2 + success_of_type results qt)
        | none =>
          if count_of_type results qt = 0 then none
          else some (count_of_type results qt, success_of_type results qt) := by
  induction results with
  | nil =>
    intro acc qt
    cases h : lookup_counts qt acc <;>
      simp [h, count_of_type, success_of_type]
  | cons r t ih =>
    intro acc qt
    rw [List.foldl_cons, ih]
    rw [count_of_type_cons, success_of_type_cons]
    by_cases hq : r.query_type = qt
    · rcases h : lookup_counts qt acc with _ | ⟨c, sc⟩
      · rw [lookup_counts_bump_none acc _ _ _ h,
            if_pos (Eq.symm hq)]
        by_cases hs : is_successful r <;>
          cases hct : count_of_type t qt <;>
            simp [hq, hs, hct] <;> omega
      · rw [lookup_counts_bump_some acc _ _ _ c sc h,
            if_pos (Eq.symm hq)]
        by_cases hs : is_successful r <;>
          simp [hq, hs] <;> omega
    · have hq2 : ¬ qt = r.query_type := fun hh => hq (Eq.symm hh)
      rcases h : lookup_counts qt acc with _ | ⟨c, sc⟩
      · rw [lookup_counts_bump_none acc _ _ _ h, if_neg hq2]
        simp [hq]
      · rw [lookup_counts_bump_some acc _ _ _ c sc h, if_neg hq2]
        simp [hq]

lemma lookup_counts_type_counts (results : List QueryResult) (qt : QueryType) :
    lookup_counts qt (type_counts results)
      = if count_of_type results qt = 0 then none
        else some (count_of_type results qt, success_of_type results qt) := by
  have h := type_counts_loop results [] qt
  rw [type_counts, h]
  rfl

lemma lookup_stat_map (l : List (QueryType × ℕ × ℕ)) (qt : QueryType) :
    (((l.map (fun e => (e.1, e.2.1,
        if e.2.1 > 0 then ((e.2.2 : ℚ) / (e.2.1 : ℚ)) else 0))).find?
        (fun e => e.1 = qt)).map (fun e => e.2))
      = (lookup_counts qt l).map
          (fun cs => (cs.1, if cs.1 > 0 then ((cs.2 : ℚ) / (cs.1 : ℚ)) else 0)) := by
  induction l with
  | nil => rfl
  | cons e t ih =>
    by_cases h : e.1 = qt
    · rw [List.map_cons, List.find?_cons_of_pos _ (by simp [h]),
          lookup_counts_cons, if_pos h]
      simp
    · rw [List.map_cons, List.find?_cons_of_neg _ (by simp [h]),
          lookup_counts_cons, if_neg h]
      exact ih

/-- C9 (confirmed): `get_query_statistics` returns the empty summary on the
empty list (no division happens), and on a non-empty list returns the total
count, the count of results with confidence above 0.5 as successful, the
success rate and the two arithmetic means, together with a per-query-type
`(count, success_rate)` breakdown. -/
theorem claim_C9_statistics :
    get_query_statistics [] = none
    ∧ ∀ results : List QueryResult, results ≠ [] →
      ∃ s : StatsSummary, get_query_statistics results = some s
        ∧ s.total_queries = results.length
        ∧ s.successful_queries = (results.filter (fun r => is_successful r)).length
        ∧ s.success_rate = (s.successful_queries : ℚ) / (s.total_queries : ℚ)
        ∧ s.average_confidence
          = (results.map (fun r => r.confidence)).sum / (results.length : ℚ)
        ∧ s.average_execution_time
          = (results.map (fun r => r.execution_time)).sum / (results.length : ℚ)
        ∧ ∀ qt : QueryType, lookup_stat qt s
            = if count_of_type results qt = 0 then none
              else some (count_of_type results qt,
                (success_of_type results qt : ℚ) / (count_of_type results qt : ℚ)) := by
  refine ⟨rfl, ?_⟩
  intro results hne
  have hE : results.isEmpty = false := by
    cases results with
    | nil => exact absurd rfl hne
    | cons a l => rfl
  have hgq : get_query_statistics results = some
      { total_queries := results.length
        successful_queries := (results.filter (fun r => is_successful r)).length
        success_rate :=
          ((results.filter (fun r => is_successful r)).length : ℚ) / (results.length : ℚ)
        average_confidence :=
          (results.map (fun r => r.confidence)).sum / (results.length : ℚ)
        average_execution_time :=
          (results.map (fun r => r.execution_time)).sum / (results.length : ℚ)
        query_type_statistics :=
          (type_counts results).map (fun e =>
            (e.1, e.2.1, if e.2.1 > 0 then (e.2.2 : ℚ) / (e.2.1 : ℚ) else 0)) } := by
    unfold get_query_statistics
    rw [hE]
    rfl
  refine ⟨_, hgq, rfl, rfl, rfl, rfl, rfl, ?_⟩
  intro qt
  show ((((type_counts results).map (fun e =>
      (e.1, e.2.1, if e.2.1 > 0 then (e.2.2 : ℚ) / (e.2.1 : ℚ) else 0))).find?
        (fun e => e.1 = qt)).map (fun e => e.2)) = _
  rw [lookup_stat_map, lookup_counts_type_counts]
  by_cases hc : count_of_type results qt = 0
  · simp [hc]
  · have hpos : 0 < count_of_type results qt := Nat.pos_of_ne_zero hc
    simp [hc, hpos]

/-- A concrete result list for instantiating `claim_C9_statistics`. -/
def c9_results : List QueryResult :=
  [QueryResult.mk "q1" QueryType.shareholder [] "a1" (4/5) [] (1/2)
     (MetaData.mk "e1" 3 3 0),
   QueryResult.mk "q2" QueryType.shareholder [] "a2" (1/5) [] (1/4)
     (MetaData.mk "e2" 3 3 0),
   QueryResult.mk "q3" QueryType.relationship [] "a3" (9/10) [] (3/4)
     (MetaData.mk "e3" 3 3 0)]

/-- Instantiation of `claim_C9_statistics` at a concrete three-element
batch. -/
theorem claim_C9_witness :
    get_query_statistics [] = none
    ∧ ∃ s : StatsSummary, get_query_statistics c9_results = some s
        ∧ s.total_queries = c9_results.length
        ∧ s.successful_queries
          = (c9_results.filter (fun r => is_successful r)).length
        ∧ s.success_rate = (s.successful_queries : ℚ) / (s.total_queries : ℚ)
        ∧ s.average_confidence
          = (c9_results.map (fun r => r.confidence)).sum / (c9_results.length : ℚ)
        ∧ s.average_execution_time
          = (c9_results.map (fun r => r.execution_time)).sum / (c9_results.length : ℚ)
        ∧ ∀ qt : QueryType, lookup_stat qt s
            = if count_of_type c9_results qt = 0 then none
              else some (count_of_type c9_results qt,
                (success_of_type c9_results qt : ℚ) / (count_of_type c9_results qt : ℚ)) :=
  ⟨claim_C9_statistics.1,
   claim_C9_statistics.2 c9_results (List.cons_ne_nil _ _)⟩

/-- Instantiation of `claim_C10_single_entity` at a concrete one-entity
path. -/
theorem claim_C10_witness :
    generate_reasoning [Entity.mk "sh_003" "张一鸣" "Person" []]
        [Relation.mk "" "" "SHAREHOLDER" []] = ""
    ∧ generate_reasoning [Entity.mk "sh_003" "张一鸣" "Person" []]
        [Relation.mk "" "" "SHAREHOLDER" []] ≠ "无法生成推理路径" :=
  claim_C10_single_entity _ _ rfl (List.cons_ne_nil _ _)

end MultiJump
